import Mathlib

/-!
Verification of the scan-decide-post-reschedule agent in `src/index.js`.

The repository's single source file holds two variants of the same program,
separated in the file; we embed both.  The first variant (lines 1-162) is
`analyzeAndPostV1` below, the second (lines 163-307) is `analyzeAndPostV2`.
Machine numbers are modelled as `Int`; the JS floating value `505 / 3`
is modelled as the exact rational `(505 : ℚ) / 3`.
-/

/-- One item of the fetched feed page.  The GraphQL query selects only the
three fields `siteUrl`, `createdAt`, `likeCount` (inline fragment on
`ListActivity`); a non-list activity serialises as the empty object `{}`.
A field is `none` when the key is absent from the JSON object. -/
structure Activity where
  siteUrl : Option String
  createdAt : Option Int
  likeCount : Option Int
deriving Repr, DecidableEq

/-- `Object.keys(activity).length === 0` (line 106): the entry has no
recognised attribute. -/
def isSentinel (a : Activity) : Bool :=
  a.siteUrl.isNone && a.createdAt.isNone && a.likeCount.isNone

/-- `a.likeCount || 0` (lines 113-114).  In JS `||` also maps a present
`likeCount` of `0` to `0`, which coincides with `Option.getD`-style
defaulting on integers. -/
def likeCountD (a : Activity) : Int :=
  match a.likeCount with
  | none => 0
  | some n => n

/-- `Array.prototype.findIndex`: index of the first element satisfying the
predicate, `-1` when there is none. -/
def jsFindIndex (p : Activity → Bool) : List Activity → Int
  | [] => -1
  | a :: rest =>
    if p a then 0
    else
      let r := jsFindIndex p rest
      if r = -1 then -1 else r + 1

/-- `Math.max(...xs)` over a spread integer array; `none` models the empty
spread (whose JS value `-Infinity` has no integer counterpart; the program
only reaches it on a non-empty array, see the publish-branch theorems). -/
def jsMaxList : List Int → Option Int
  | [] => none
  | x :: xs =>
    match jsMaxList xs with
    | none => some x
    | some m => some (max x m)

/-- Line 113: `Math.max(...topActivities.map((a) => (a.likeCount || 0)))`. -/
def maxLikes (topActivities : List Activity) : Option Int :=
  jsMaxList (topActivities.map (fun a => likeCountD a))

/-- Line 114: `topActivities.filter((a) => (a.likeCount || 0) === maxLikes)`.
When `topActivities` is empty the JS `maxLikes` is `-Infinity` and the
filter keeps nothing, so the empty case returns `[]`. -/
def mostLikedActivities (topActivities : List Activity) : List Activity :=
  match maxLikes topActivities with
  | none => []
  | some m => topActivities.filter (fun a => likeCountD a == m)

/-- Line 133 (variant 1):
`Math.max(1, Math.floor((505 / 3) - (15 * (textPosition - 1))))`. -/
def interval1 (textPosition : Nat) : Int :=
  max 1 ⌊(505 : ℚ) / 3 - 15 * ((textPosition : ℚ) - 1)⌋

/-- Line 289 (variant 2): `(505 / 3) - (15 * (textPosition - 1))` — no
`Math.floor`, no clamping to 1. -/
def interval2 (textPosition : Nat) : ℚ :=
  (505 : ℚ) / 3 - 15 * ((textPosition : ℚ) - 1)

/-- Line 292 (variant 2): `setTimeout(resolve, interval * 60000)`. -/
def sleepMs2 (textPosition : Nat) : ℚ :=
  interval2 textPosition * 60000

/-- Lines 48-54: `countdown(minutes)` sleeps 60000 ms once per loop
iteration `i = minutes, …, 1`, i.e. `max 0 minutes` iterations. -/
def countdownMs (minutes : Int) : Int :=
  max 0 minutes * 60000

/-- Control-flow outcome of one cycle of variant 1's `analyzeAndPost`
(lines 101-143).  `noSentinel` is the `else` branch at lines 137-139,
which only logs: it carries no wait and schedules no next cycle.
`skip` and `publish` both fall through to `countdown(interval)` and the
recursive call, so they carry the computed wait in minutes. -/
inductive Outcome where
  | noSentinel : Outcome
  | skip (textPosition : Nat) (interval : Int) : Outcome
  | publish (textPosition : Nat) (selectedActivity : Option Activity) (interval : Int) : Outcome
deriving Repr, DecidableEq

/-- Same for variant 2 (lines 257-301), whose interval is the raw rational
of line 289. -/
inductive Outcome2 where
  | noSentinel : Outcome2
  | skip (textPosition : Nat) (interval : ℚ) : Outcome2
  | publish (textPosition : Nat) (selectedActivity : Option Activity) (interval : ℚ) : Outcome2
deriving Repr, DecidableEq

/-- One cycle of variant 1's `analyzeAndPost` (lines 101-143).  `r` models
the already-drawn index `Math.floor(Math.random() * mostLikedActivities.length)`
of line 116; list indexing with `[r]?` models the JS array access, which
yields `undefined` (`none`) out of bounds. -/
def analyzeAndPostV1 (activities : List Activity) (r : Nat) : Outcome :=
  let textPostIndex := jsFindIndex (fun activity => isSentinel activity) activities
  if textPostIndex ≠ -1 then
    let textPosition := (textPostIndex + 1).toNat
    if 11 ≤ textPosition then
      let topActivities := activities.take (textPosition - 1)
      Outcome.publish textPosition ((mostLikedActivities topActivities)[r]?)
        (interval1 textPosition)
    else
      Outcome.skip textPosition (interval1 textPosition)
  else
    Outcome.noSentinel

/-- One cycle of variant 2's `analyzeAndPost` (lines 257-301): identical
decision logic, but the wait is the unclamped `interval2`. -/
def analyzeAndPostV2 (activities : List Activity) (r : Nat) : Outcome2 :=
  let textPostIndex := jsFindIndex (fun activity => isSentinel activity) activities
  if textPostIndex ≠ -1 then
    let textPosition := (textPostIndex + 1).toNat
    if 11 ≤ textPosition then
      let topActivities := activities.take (textPosition - 1)
      Outcome2.publish textPosition ((mostLikedActivities topActivities)[r]?)
        (interval2 textPosition)
    else
      Outcome2.skip textPosition (interval2 textPosition)
  else
    Outcome2.noSentinel

/-- 1-based position of the first sentinel (lines 106-108): `textPostIndex + 1`
when `findIndex` does not return `-1`, nothing otherwise. -/
def sentinelPosition (activities : List Activity) : Option Nat :=
  let textPostIndex := jsFindIndex (fun activity => isSentinel activity) activities
  if textPostIndex ≠ -1 then some (textPostIndex + 1).toNat else none

/-- The wait (in minutes) a cycle of variant 1 schedules before recursing,
`none` when the cycle ends without rescheduling. -/
def outcomeWait1 : Outcome → Option Int
  | Outcome.noSentinel => none
  | Outcome.skip _ i => some i
  | Outcome.publish _ _ i => some i

/-- Same for variant 2 (minutes, rational). -/
def outcomeWait2 : Outcome2 → Option ℚ
  | Outcome2.noSentinel => none
  | Outcome2.skip _ i => some i
  | Outcome2.publish _ _ i => some i

/-- Whether the cycle reached the publish branch (line 111's then-branch). -/
def outcomeIsPublish1 : Outcome → Bool
  | Outcome.publish _ _ _ => true
  | _ => false

/-- Whether variant 2's cycle reached the publish branch (line 268). -/
def outcomeIsPublish2 : Outcome2 → Bool
  | Outcome2.publish _ _ _ => true
  | _ => false

/-! ## Startup configuration (lines 10-19) -/

/-- The four environment settings read at startup (lines 10-13); a field is
`none` when the variable is unset. -/
structure Config where
  accessApi : Option String
  saikoId : Option String
  accessToken : Option String
  contentTemplate : Option String
deriving Repr, DecidableEq

/-- The longest leading digit run of `cs`, `none` when there is none. -/
def parseDigits (cs : List Char) : Option Nat :=
  let ds := cs.takeWhile (fun c => c.isDigit)
  if ds = [] then none
  else some (ds.foldl (fun n c => 10 * n + (c.toNat - 48)) 0)

/-- JS `parseInt` at base 10: skip leading spaces, optional sign, longest
digit run; `none` models `NaN` (no digits, or an unset variable). -/
def jsParseInt : Option String → Option Int
  | none => none
  | some s =>
    match s.toList.dropWhile (fun c => c = ' ') with
    | [] => none
    | c :: rest =>
      if c = '-' then (parseDigits rest).map (fun n => -(n : Int))
      else if c = '+' then (parseDigits rest).map (fun n => (n : Int))
      else (parseDigits (c :: rest)).map (fun n => (n : Int))

/-- JS truthiness of the number `SAIKO_ID = parseInt(...)` (line 11):
`NaN` (`none`) and `0` are falsy. -/
def jsTruthyInt : Option Int → Bool
  | none => false
  | some n => !(n == 0)

/-- JS truthiness of a string setting: unset and the empty string are falsy. -/
def jsTruthyStr : Option String → Bool
  | none => false
  | some s => !(s == "")

/-- Line 16: `if (!SAIKO_ID || !ACCESS_TOKEN || !CONTENT_TEMPLATE)`, the
condition under which the process logs and calls `process.exit(1)`.  The
endpoint `ACCESS_API` (line 10) does not appear in the check. -/
def startupFatal (c : Config) : Bool :=
  !jsTruthyInt (jsParseInt c.saikoId) || !jsTruthyStr c.accessToken ||
    !jsTruthyStr c.contentTemplate

/-- Exit status of startup: `process.exit(1)` on the fatal path (line 18),
no exit otherwise. -/
def startupExitCode (c : Config) : Option Nat :=
  if startupFatal c then some 1 else none

/-! ## GraphQL client (lines 56-91) -/

/-- A successfully parsed JSON response body: `errors` is `some l` when the
body has an `errors` key holding an array, `none` when the key is absent or
null (both falsy in JS); `data` is the body's `data` field. -/
structure GQLResult (α : Type) where
  errors : Option (List String)
  data : Option α
deriving Repr, DecidableEq

/-- `fetchGraphQL` (lines 56-77).  `response = none` models transport
failure (the catch path, lines 73-76).  `if (result.errors)` (line 68)
takes the truthy branch for ANY present array — including the empty one —
and returns null; otherwise `result.data` is returned (line 72). -/
def fetchGraphQL {α : Type} (response : Option (GQLResult α)) : Option α :=
  match response with
  | none => none
  | some result =>
    match result.errors with
    | some _ => none
    | none => result.data

/-- The `Page` object of the fetch-activities response. -/
structure PageObj where
  activities : Option (List Activity)
deriving Repr, DecidableEq

/-- The `data` payload of the fetch-activities response. -/
structure FeedData where
  Page : Option PageObj
deriving Repr, DecidableEq

/-- `getLatestActivities` (lines 88-91): `data?.Page?.activities || []` —
optional chaining yields `undefined`, hence `[]`, when any field along the
path is missing. -/
def getLatestActivities (response : Option (GQLResult FeedData)) : List Activity :=
  match fetchGraphQL response with
  | none => []
  | some d =>
    match d.Page with
    | none => []
    | some p =>
      match p.activities with
      | none => []
      | some acts => acts

/-! ## Template renderer (lines 93-99) -/

def lbrace : Char := Char.ofNat 123

def rbrace : Char := Char.ofNat 125

/-- The literal pattern built at line 96 for a key: an opening brace, the
key, a closing brace. -/
def placeholder (key : List Char) : List Char :=
  lbrace :: key ++ [rbrace]

/-- `String.prototype.replaceAll` with a literal pattern: one left-to-right
pass, each match consumed whole, so replacement text is never re-scanned
within the pass.  Strings are modelled as character lists. -/
def replaceAll (pat rep : List Char) : List Char → List Char
  | [] => []
  | c :: rest =>
    if 0 < pat.length ∧ (c :: rest).take pat.length = pat then
      rep ++ replaceAll pat rep ((c :: rest).drop pat.length)
    else
      c :: replaceAll pat rep rest
termination_by s => s.length
decreasing_by
  · rename_i h
    simp only [List.length_drop, List.length_cons]
    omega
  · simp only [List.length_cons]
    omega

/-- `generateContent` (lines 93-99): fold over `Object.entries(variables)`
in insertion order, re-running `replaceAll` on the accumulated content. -/
def generateContent (template : List Char) (vars : List (List Char × List Char)) : List Char :=
  vars.foldl (fun content kv => replaceAll (placeholder kv.1) kv.2 content) template

/-- `pat` occurs in `s` starting at index `i`. -/
def occursAt (pat s : List Char) (i : Nat) : Prop :=
  (s.drop i).take pat.length = pat

instance (pat s : List Char) (i : Nat) : Decidable (occursAt pat s i) := by
  unfold occursAt
  exact inferInstance

/-- Modelled from the claim's wording, for comparison with the code's
`generateContent`: a single left-to-right pass over the template in which
substituted text is never re-scanned — at each position, if the remaining
text starts with the placeholder of some pair `(k, v)` of `vars` (first
such pair), emit `v` and continue after the placeholder, else emit the
character. -/
def renderNoRescan (vars : List (List Char × List Char)) : List Char → List Char
  | [] => []
  | c :: rest =>
    match vars.find? (fun kv =>
        (c :: rest).take (placeholder kv.1).length == placeholder kv.1) with
    | some kv => kv.2 ++ renderNoRescan vars ((c :: rest).drop (placeholder kv.1).length)
    | none => c :: renderNoRescan vars rest
termination_by s => s.length
decreasing_by
  · simp only [List.length_drop, List.length_cons, placeholder, List.length_append]
    omega
  · simp only [List.length_cons]
    omega

/-! ## Concrete sample data for witnesses and counterexamples -/

/-- A list activity with all three recognised fields present. -/
def sampleListActivity (n : Int) : Activity :=
  ⟨some "u", some 0, some n⟩

/-- The empty record marking a non-list activity. -/
def sampleSentinel : Activity :=
  ⟨none, none, none⟩

/-- A page whose first sentinel sits at position 2 (below the threshold). -/
def actsPos2 : List Activity :=
  [sampleListActivity 1, sampleSentinel]

/-- A page whose first sentinel sits at position 11 (at the threshold). -/
def actsPos11 : List Activity :=
  [sampleListActivity 1, sampleListActivity 5, sampleListActivity 2, sampleListActivity 5,
   sampleListActivity 0, sampleListActivity 3, sampleListActivity 1, sampleListActivity 4,
   sampleListActivity 2, sampleListActivity 0, sampleSentinel]

/-- A page with no sentinel at all. -/
def actsNoSentinel : List Activity :=
  [sampleListActivity 3]

/-- Template that is exactly the placeholder of key `A`. -/
def tmplRescan : List Char :=
  [lbrace, 'A', rbrace]

/-- Mapping where the value of `A` is the placeholder of `B`. -/
def varsRescan : List (List Char × List Char) :=
  [(['A'], [lbrace, 'B', rbrace]), (['B'], ['x'])]

/-- A template containing no placeholder. -/
def tmplPlain : List Char :=
  ['H', 'i']

/-- A one-key mapping whose placeholder is absent from `tmplPlain`. -/
def varsPlain : List (List Char × List Char) :=
  [(['A'], ['x'])]

/-- All settings present except the endpoint URL. -/
def configNoApi : Config :=
  ⟨none, some "7", some "tok", some "tmpl"⟩

/-- All settings present except the credential. -/
def configNoToken : Config :=
  ⟨some "api", some "7", none, some "tmpl"⟩

/-- A parsed response whose `errors` field holds the empty array. -/
def emptyErrorsResult : GQLResult Nat :=
  ⟨some [], some 42⟩

/-- A fetch-activities response with every expected field present. -/
def feedOkResponse : Option (GQLResult FeedData) :=
  some ⟨none, some ⟨some ⟨some actsPos2⟩⟩⟩

/-! ## Helper lemmas -/

lemma jsFindIndex_ge (p : Activity → Bool) (l : List Activity) : -1 ≤ jsFindIndex p l := by
  induction l with
  | nil => simp [jsFindIndex]
  | cons a rest ih =>
    simp only [jsFindIndex]
    split
    · omega
    · split <;> omega

lemma jsFindIndex_eq_neg_one_iff (p : Activity → Bool) (l : List Activity) :
    jsFindIndex p l = -1 ↔ ∀ a ∈ l, p a = false := by
  induction l with
  | nil => simp [jsFindIndex]
  | cons a rest ih =>
    simp only [jsFindIndex]
    by_cases hpa : p a = true
    · simp [hpa]
    · have hge := jsFindIndex_ge p rest
      rw [if_neg hpa]
      by_cases hr : jsFindIndex p rest = -1
      · rw [if_pos hr]
        constructor
        · intro _ x hx
          rcases List.mem_cons.mp hx with rfl | hx
          · simpa using hpa
          · exact (ih.mp hr) x hx
        · intro _
          rfl
      · rw [if_neg hr]
        constructor
        · intro h
          omega
        · intro h
          exact absurd (ih.mpr fun x hx => h x (List.mem_cons_of_mem a hx)) hr

lemma jsFindIndex_spec (p : Activity → Bool) (l : List Activity) (i : Nat)
    (h : jsFindIndex p l = (i : Int)) :
    (∃ a, l[i]? = some a ∧ p a = true) ∧
      ∀ j a, j < i → l[j]? = some a → p a = false := by
  induction l generalizing i with
  | nil =>
    simp only [jsFindIndex] at h
    omega
  | cons a rest ih =>
    simp only [jsFindIndex] at h
    by_cases hpa : p a = true
    · rw [if_pos hpa] at h
      have hi : i = 0 := by omega
      subst hi
      exact ⟨⟨a, by simp, hpa⟩, fun j b hj => by omega⟩
    · rw [if_neg hpa] at h
      have hge := jsFindIndex_ge p rest
      by_cases hr : jsFindIndex p rest = -1
      · rw [if_pos hr] at h
        omega
      · rw [if_neg hr] at h
        have hk : jsFindIndex p rest = ((i - 1 : Nat) : Int) ∧ 1 ≤ i := by omega
        obtain ⟨i', rfl⟩ : ∃ i', i = i' + 1 := ⟨i - 1, by omega⟩
        have hrest := ih i' (by omega)
        refine ⟨?_, ?_⟩
        · obtain ⟨b, hb, hpb⟩ := hrest.1
          exact ⟨b, by simpa using hb, hpb⟩
        · intro j b hj hb
          match j with
          | 0 =>
            simp only [List.getElem?_cons_zero, Option.some.injEq] at hb
            subst hb
            simpa using hpa
          | j' + 1 =>
            exact hrest.2 j' b (by omega) (by simpa using hb)

lemma sentinelPosition_eq_none_iff (activities : List Activity) :
    sentinelPosition activities = none ↔
      jsFindIndex (fun activity => isSentinel activity) activities = -1 := by
  simp only [sentinelPosition]
  by_cases h : jsFindIndex (fun activity => isSentinel activity) activities = -1 <;> simp [h]

lemma sentinelPosition_eq_some (activities : List Activity) (pos : Nat)
    (h : sentinelPosition activities = some pos) :
    1 ≤ pos ∧
      jsFindIndex (fun activity => isSentinel activity) activities = (pos : Int) - 1 := by
  simp only [sentinelPosition] at h
  have hge := jsFindIndex_ge (fun activity => isSentinel activity) activities
  by_cases hne : jsFindIndex (fun activity => isSentinel activity) activities = -1
  · simp [hne] at h
  · simp only [ne_eq, hne, not_false_eq_true, if_true, Option.some.injEq] at h
    omega

lemma analyzeAndPostV1_eq (activities : List Activity) (r : Nat) :
    analyzeAndPostV1 activities r =
      match sentinelPosition activities with
      | none => Outcome.noSentinel
      | some pos =>
        if 11 ≤ pos then
          Outcome.publish pos ((mostLikedActivities (activities.take (pos - 1)))[r]?)
            (interval1 pos)
        else
          Outcome.skip pos (interval1 pos) := by
  unfold analyzeAndPostV1 sentinelPosition
  by_cases h : jsFindIndex (fun activity => isSentinel activity) activities = -1 <;>
    simp [h]

lemma analyzeAndPostV2_eq (activities : List Activity) (r : Nat) :
    analyzeAndPostV2 activities r =
      match sentinelPosition activities with
      | none => Outcome2.noSentinel
      | some pos =>
        if 11 ≤ pos then
          Outcome2.publish pos ((mostLikedActivities (activities.take (pos - 1)))[r]?)
            (interval2 pos)
        else
          Outcome2.skip pos (interval2 pos) := by
  unfold analyzeAndPostV2 sentinelPosition
  by_cases h : jsFindIndex (fun activity => isSentinel activity) activities = -1 <;>
    simp [h]

lemma jsMaxList_eq_none_iff (l : List Int) : jsMaxList l = none ↔ l = [] := by
  cases l with
  | nil => simp [jsMaxList]
  | cons x xs =>
    simp only [jsMaxList]
    cases jsMaxList xs <;> simp

lemma jsMaxList_mem : ∀ (l : List Int) (m : Int), jsMaxList l = some m → m ∈ l
  | [], m => by simp [jsMaxList]
  | x :: xs, m => by
    simp only [jsMaxList]
    cases hxs : jsMaxList xs with
    | none =>
      intro h
      simp only [Option.some.injEq] at h
      simp [← h]
    | some m' =>
      intro h
      simp only [Option.some.injEq] at h
      rcases max_choice x m' with hc | hc
      · rw [← h, hc]
        exact List.mem_cons_self x xs
      · rw [← h, hc]
        exact List.mem_cons_of_mem x (jsMaxList_mem xs m' hxs)

lemma le_jsMaxList : ∀ (l : List Int) (m x : Int), jsMaxList l = some m → x ∈ l → x ≤ m
  | [], _, x => by simp
  | y :: ys, m, x => by
    simp only [jsMaxList]
    cases hys : jsMaxList ys with
    | none =>
      intro h hx
      simp only [Option.some.injEq] at h
      rw [jsMaxList_eq_none_iff] at hys
      subst hys
      simp only [List.mem_cons, List.not_mem_nil, or_false] at hx
      omega
    | some m' =>
      intro h hx
      simp only [Option.some.injEq] at h
      rcases List.mem_cons.mp hx with rfl | hmem
      · rw [← h]
        exact le_max_left x m'
      · exact le_trans (le_jsMaxList ys m' x hys hmem)
          (by rw [← h]; exact le_max_right y m')

lemma maxLikes_isSome (t : List Activity) (h : t ≠ []) : ∃ m, maxLikes t = some m := by
  cases hm : maxLikes t with
  | none =>
    unfold maxLikes at hm
    rw [jsMaxList_eq_none_iff] at hm
    simp only [List.map_eq_nil_iff] at hm
    exact absurd hm h
  | some m => exact ⟨m, rfl⟩

lemma mem_mostLikedActivities_iff (t : List Activity) (m : Int) (h : maxLikes t = some m)
    (a : Activity) :
    a ∈ mostLikedActivities t ↔ a ∈ t ∧ likeCountD a = m := by
  unfold mostLikedActivities
  rw [h]
  simp [List.mem_filter]

lemma mostLikedActivities_ne_nil (t : List Activity) (m : Int) (h : maxLikes t = some m) :
    mostLikedActivities t ≠ [] := by
  have hm : m ∈ t.map (fun a => likeCountD a) := jsMaxList_mem _ _ h
  obtain ⟨a, ha, hla⟩ := List.mem_map.mp hm
  have : a ∈ mostLikedActivities t := (mem_mostLikedActivities_iff t m h a).mpr ⟨ha, hla⟩
  exact List.ne_nil_of_mem this

lemma likeCountD_le_maxLikes (t : List Activity) (m : Int) (h : maxLikes t = some m)
    (a : Activity) (ha : a ∈ t) : likeCountD a ≤ m :=
  le_jsMaxList _ m (likeCountD a) h (List.mem_map.mpr ⟨a, ha, rfl⟩)

lemma sentinel_take_length (activities : List Activity) (pos : Nat)
    (h : sentinelPosition activities = some pos) :
    (activities.take (pos - 1)).length = pos - 1 := by
  obtain ⟨h1, hfi⟩ := sentinelPosition_eq_some activities pos h
  have hspec := jsFindIndex_spec _ activities (pos - 1) (by rw [hfi]; omega)
  obtain ⟨a, ha, _⟩ := hspec.1
  have hlt : pos - 1 < activities.length := by
    by_contra hge
    rw [List.getElem?_eq_none (by omega)] at ha
    exact Option.noConfusion ha
  simp [List.length_take]
  omega

lemma take_append_self (a b : List Char) : (a ++ b).take a.length = a := by
  induction a with
  | nil => simp
  | cons c a' ih => simp [ih]

lemma drop_append_self (a b : List Char) : (a ++ b).drop a.length = b := by
  induction a with
  | nil => simp
  | cons c a' ih => simp [ih]

lemma placeholder_length_pos (k : List Char) : 0 < (placeholder k).length := by
  simp [placeholder]

lemma replaceAll_of_no_occurrence (pat rep : List Char) :
    ∀ s : List Char, (∀ i < s.length, ¬ occursAt pat s i) → replaceAll pat rep s = s := by
  intro s
  induction s with
  | nil =>
    intro _
    simp [replaceAll]
  | cons c rest ih =>
    intro h
    have h0 : ¬ occursAt pat (c :: rest) 0 := h 0 (by simp)
    have hcond : ¬ (0 < pat.length ∧ (c :: rest).take pat.length = pat) := by
      rintro ⟨-, hc⟩
      exact h0 (by simpa [occursAt] using hc)
    simp only [replaceAll]
    rw [if_neg hcond]
    congr 1
    refine ih fun i hi => ?_
    have := h (i + 1) (by simpa using Nat.succ_lt_succ hi)
    simpa [occursAt] using this

lemma replaceAll_first_occurrence (pat rep : List Char) (hp : 0 < pat.length) :
    ∀ x y : List Char, (∀ i < x.length, ¬ occursAt pat (x ++ pat ++ y) i) →
      replaceAll pat rep (x ++ pat ++ y) = x ++ rep ++ replaceAll pat rep y := by
  intro x
  induction x with
  | nil =>
    intro y _
    rcases pat with _ | ⟨pc, pcs⟩
    · simp at hp
    · have ht : (pc :: (pcs ++ y)).take (pc :: pcs).length = pc :: pcs := by
        simpa using take_append_self (pc :: pcs) y
      have hd : (pc :: (pcs ++ y)).drop (pc :: pcs).length = y := by
        simpa using drop_append_self (pc :: pcs) y
      simp only [List.nil_append, List.cons_append, replaceAll]
      rw [if_pos ⟨by simp, ht⟩, hd]
  | cons c x' ih =>
    intro y h
    have h0 : ¬ occursAt pat ((c :: x') ++ pat ++ y) 0 := h 0 (by simp)
    have hcond : ¬ (0 < pat.length ∧
        ((c :: x') ++ pat ++ y).take pat.length = pat) := by
      rintro ⟨-, hc⟩
      exact h0 (by simpa [occursAt] using hc)
    have hstep : (c :: x') ++ pat ++ y = c :: (x' ++ pat ++ y) := by simp
    rw [hstep] at hcond ⊢
    simp only [replaceAll]
    rw [if_neg hcond]
    rw [ih y fun i hi => ?_]
    · simp
    · have := h (i + 1) (by simpa using Nat.succ_lt_succ hi)
      simpa [occursAt] using this

lemma generateContent_cons (template : List Char) (kv : List Char × List Char)
    (vars : List (List Char × List Char)) :
    generateContent template (kv :: vars) =
      generateContent (replaceAll (placeholder kv.1) kv.2 template) vars := rfl

lemma generateContent_of_no_occurrence (template : List Char)
    (vars : List (List Char × List Char))
    (h : ∀ kv ∈ vars, ∀ i < template.length, ¬ occursAt (placeholder kv.1) template i) :
    generateContent template vars = template := by
  induction vars with
  | nil => rfl
  | cons kv rest ih =>
    rw [generateContent_cons,
      replaceAll_of_no_occurrence (placeholder kv.1) kv.2
        template (h kv (List.mem_cons_self kv rest))]
    exact ih fun kv' hkv' => h kv' (List.mem_cons_of_mem kv hkv')

/-! ## Claim theorems -/

/-- C1: the Selection Heuristic, given an ordered feed page, locates the
first sentinel entry (an entry with zero recognised attributes) and reports
its 1-based position (index 0 is position 1); if no sentinel exists in the
page it signals no decision this cycle, with no post and no position. -/
theorem selection_locates_first_sentinel (activities : List Activity) (r : Nat) :
    (∀ pos, sentinelPosition activities = some pos →
      1 ≤ pos ∧ (∃ a, activities[pos - 1]? = some a ∧ isSentinel a = true) ∧
        ∀ j a, j < pos - 1 → activities[j]? = some a → isSentinel a = false) ∧
    (sentinelPosition activities = none ↔ ∀ a ∈ activities, isSentinel a = false) ∧
    (sentinelPosition activities = none →
      analyzeAndPostV1 activities r = Outcome.noSentinel ∧
        analyzeAndPostV2 activities r = Outcome2.noSentinel) := by
  refine ⟨?_, ?_, ?_⟩
  · intro pos hpos
    obtain ⟨h1, hfi⟩ := sentinelPosition_eq_some activities pos hpos
    have hspec := jsFindIndex_spec _ activities (pos - 1) (by rw [hfi]; omega)
    exact ⟨h1, hspec.1, hspec.2⟩
  · rw [sentinelPosition_eq_none_iff]
    exact jsFindIndex_eq_neg_one_iff _ activities
  · intro h
    rw [analyzeAndPostV1_eq, analyzeAndPostV2_eq, h]
    exact ⟨rfl, rfl⟩

/-- C1 witness: on a concrete page, the first sentinel sits at index 1 and
is reported as position 2, with only non-sentinels before it. -/
theorem selection_locates_first_sentinel_witness :
    1 ≤ 2 ∧ (∃ a, actsPos2[2 - 1]? = some a ∧ isSentinel a = true) ∧
      ∀ j a, j < 2 - 1 → actsPos2[j]? = some a → isSentinel a = false :=
  (selection_locates_first_sentinel actsPos2 0).1 2 (by decide)

/-- C3: for every sentinel position, if the position is below the threshold
11 no publish decision is made but the cycle still computes a wait and
reschedules (the `skip` outcome carries the interval that feeds the
countdown before the recursive call); at or above 11 the publish decision
proceeds.  Both variants behave alike. -/
theorem threshold_gate (activities : List Activity) (pos r : Nat)
    (hpos : sentinelPosition activities = some pos) :
    (pos < 11 →
      analyzeAndPostV1 activities r = Outcome.skip pos (interval1 pos) ∧
        analyzeAndPostV2 activities r = Outcome2.skip pos (interval2 pos)) ∧
    (11 ≤ pos →
      outcomeIsPublish1 (analyzeAndPostV1 activities r) = true ∧
        outcomeIsPublish2 (analyzeAndPostV2 activities r) = true) ∧
    outcomeWait1 (analyzeAndPostV1 activities r) = some (interval1 pos) ∧
    outcomeWait2 (analyzeAndPostV2 activities r) = some (interval2 pos) := by
  rw [analyzeAndPostV1_eq, analyzeAndPostV2_eq, hpos]
  by_cases h : 11 ≤ pos
  · simp [h, outcomeIsPublish1, outcomeIsPublish2, outcomeWait1, outcomeWait2]
  · simp [h, outcomeIsPublish1, outcomeIsPublish2, outcomeWait1, outcomeWait2]

/-- C3 witness: position 2 (below threshold) skips publishing but still
carries the wait; the threshold conjunct is vacuous there. -/
theorem threshold_gate_witness :
    (2 < 11 →
      analyzeAndPostV1 actsPos2 0 = Outcome.skip 2 (interval1 2) ∧
        analyzeAndPostV2 actsPos2 0 = Outcome2.skip 2 (interval2 2)) ∧
    (11 ≤ 2 →
      outcomeIsPublish1 (analyzeAndPostV1 actsPos2 0) = true ∧
        outcomeIsPublish2 (analyzeAndPostV2 actsPos2 0) = true) ∧
    outcomeWait1 (analyzeAndPostV1 actsPos2 0) = some (interval1 2) ∧
    outcomeWait2 (analyzeAndPostV2 actsPos2 0) = some (interval2 2) :=
  threshold_gate actsPos2 2 0 (by decide)

/-- C2: at or above the threshold, the candidate pool is the sub-sequence
of the `position - 1` entries strictly before the sentinel; `maxLikes` is
the maximum defaulted like count over that pool, the tie set is exactly
the entries whose defaulted like count equals `maxLikes`, and the selected
candidate (any drawn in-bounds index) is a member of the tie set. -/
theorem tie_set_and_selected_candidate (activities : List Activity) (pos r : Nat)
    (hpos : sentinelPosition activities = some pos) (hthr : 11 ≤ pos) :
    (activities.take (pos - 1)).length = pos - 1 ∧
    ∃ m, maxLikes (activities.take (pos - 1)) = some m ∧
      (∀ a ∈ activities.take (pos - 1), likeCountD a ≤ m) ∧
      (∃ a ∈ activities.take (pos - 1), likeCountD a = m) ∧
      (∀ a, a ∈ mostLikedActivities (activities.take (pos - 1)) ↔
        a ∈ activities.take (pos - 1) ∧ likeCountD a = m) ∧
      ∀ hr : r < (mostLikedActivities (activities.take (pos - 1))).length,
        ∃ sel, (mostLikedActivities (activities.take (pos - 1)))[r]? = some sel ∧
          sel ∈ mostLikedActivities (activities.take (pos - 1)) ∧
          analyzeAndPostV1 activities r = Outcome.publish pos (some sel) (interval1 pos) := by
  have hlen := sentinel_take_length activities pos hpos
  refine ⟨hlen, ?_⟩
  have hne : activities.take (pos - 1) ≠ [] := by
    intro hnil
    rw [hnil] at hlen
    simp at hlen
    omega
  obtain ⟨m, hm⟩ := maxLikes_isSome _ hne
  refine ⟨m, hm, fun a ha => likeCountD_le_maxLikes _ m hm a ha, ?_, ?_, ?_⟩
  · have hmem : m ∈ (activities.take (pos - 1)).map (fun a => likeCountD a) :=
      jsMaxList_mem _ m hm
    obtain ⟨a, ha, hla⟩ := List.mem_map.mp hmem
    exact ⟨a, ha, hla⟩
  · exact mem_mostLikedActivities_iff _ m hm
  · intro hr
    refine ⟨(mostLikedActivities (activities.take (pos - 1)))[r], ?_, ?_, ?_⟩
    · exact List.getElem?_eq_getElem hr
    · exact List.getElem_mem hr
    · rw [analyzeAndPostV1_eq, hpos]
      simp [hthr, List.getElem?_eq_getElem hr]

/-- C2 witness: on the concrete page with sentinel at position 11, the pool
is the ten entries before it, `maxLikes` exists, bounds every entry, is
attained, characterises the tie set, and the drawn index 0 selects a tie
set member. -/
theorem tie_set_and_selected_candidate_witness :
    (actsPos11.take (11 - 1)).length = 11 - 1 ∧
    ∃ m, maxLikes (actsPos11.take (11 - 1)) = some m ∧
      (∀ a ∈ actsPos11.take (11 - 1), likeCountD a ≤ m) ∧
      (∃ a ∈ actsPos11.take (11 - 1), likeCountD a = m) ∧
      (∀ a, a ∈ mostLikedActivities (actsPos11.take (11 - 1)) ↔
        a ∈ actsPos11.take (11 - 1) ∧ likeCountD a = m) ∧
      ∀ hr : 0 < (mostLikedActivities (actsPos11.take (11 - 1))).length,
        ∃ sel, (mostLikedActivities (actsPos11.take (11 - 1)))[0]? = some sel ∧
          sel ∈ mostLikedActivities (actsPos11.take (11 - 1)) ∧
          analyzeAndPostV1 actsPos11 0 = Outcome.publish 11 (some sel) (interval1 11) :=
  tie_set_and_selected_candidate actsPos11 11 0 (by decide) (by omega)

/-- C10 (implicit): whenever the first sentinel sits at position at least
11, the pre-sentinel pool has `position - 1 ≥ 10` entries, so it is
non-empty, the tie set is non-empty, and every in-bounds drawn index yields
a defined selected candidate in both variants — the empty-pool open
question is unreachable under threshold 11. -/
theorem publish_branch_always_defined (activities : List Activity) (pos : Nat)
    (hpos : sentinelPosition activities = some pos) (hthr : 11 ≤ pos) :
    (activities.take (pos - 1)).length = pos - 1 ∧ 10 ≤ pos - 1 ∧
    mostLikedActivities (activities.take (pos - 1)) ≠ [] ∧
    ∀ r, r < (mostLikedActivities (activities.take (pos - 1))).length →
      ∃ sel, analyzeAndPostV1 activities r = Outcome.publish pos (some sel) (interval1 pos) ∧
        analyzeAndPostV2 activities r = Outcome2.publish pos (some sel) (interval2 pos) := by
  have hlen := sentinel_take_length activities pos hpos
  have hne : activities.take (pos - 1) ≠ [] := by
    intro hnil
    rw [hnil] at hlen
    simp at hlen
    omega
  obtain ⟨m, hm⟩ := maxLikes_isSome _ hne
  refine ⟨hlen, by omega, mostLikedActivities_ne_nil _ m hm, ?_⟩
  intro r hr
  refine ⟨(mostLikedActivities (activities.take (pos - 1)))[r], ?_, ?_⟩
  · rw [analyzeAndPostV1_eq, hpos]
    simp [hthr, List.getElem?_eq_getElem hr]
  · rw [analyzeAndPostV2_eq, hpos]
    simp [hthr, List.getElem?_eq_getElem hr]

/-- C10 witness: instantiated on the concrete page with sentinel at
position 11. -/
theorem publish_branch_always_defined_witness :
    (actsPos11.take (11 - 1)).length = 11 - 1 ∧ 10 ≤ 11 - 1 ∧
    mostLikedActivities (actsPos11.take (11 - 1)) ≠ [] ∧
    ∀ r, r < (mostLikedActivities (actsPos11.take (11 - 1))).length →
      ∃ sel, analyzeAndPostV1 actsPos11 r = Outcome.publish 11 (some sel) (interval1 11) ∧
        analyzeAndPostV2 actsPos11 r = Outcome2.publish 11 (some sel) (interval2 11) :=
  publish_branch_always_defined actsPos11 11 (by decide) (by omega)

/-- C9 counterexample: on a concrete page with no sentinel, both variants
end the cycle in the `noSentinel` outcome, which corresponds to the
log-only `else` branches (lines 137-139 and 295-297): no wait is computed
and no next cycle is scheduled, contradicting the claim that the cycle
still falls through to compute a wait and loop. -/
theorem no_sentinel_reschedule_counterexample :
    analyzeAndPostV1 actsNoSentinel 0 = Outcome.noSentinel ∧
    outcomeWait1 (analyzeAndPostV1 actsNoSentinel 0) = none ∧
    analyzeAndPostV2 actsNoSentinel 0 = Outcome2.noSentinel ∧
    outcomeWait2 (analyzeAndPostV2 actsNoSentinel 0) = none := by
  refine ⟨by decide, ?_, by decide, ?_⟩ <;> decide

/-- C9 amended: when the Selection Heuristic finds no sentinel in the
fetched page, the Scan Loop logs and ends the cycle — no wait is computed
and no next cycle is scheduled (the recursion chain stops), in both
variants. -/
theorem no_sentinel_stops_cycle (activities : List Activity) (r : Nat)
    (h : sentinelPosition activities = none) :
    analyzeAndPostV1 activities r = Outcome.noSentinel ∧
    analyzeAndPostV2 activities r = Outcome2.noSentinel ∧
    outcomeWait1 (analyzeAndPostV1 activities r) = none ∧
    outcomeWait2 (analyzeAndPostV2 activities r) = none := by
  rw [analyzeAndPostV1_eq, analyzeAndPostV2_eq, h]
  exact ⟨rfl, rfl, rfl, rfl⟩

/-- C9 amended witness: instantiated on the concrete sentinel-free page. -/
theorem no_sentinel_stops_cycle_witness :
    analyzeAndPostV1 actsNoSentinel 1 = Outcome.noSentinel ∧
    analyzeAndPostV2 actsNoSentinel 1 = Outcome2.noSentinel ∧
    outcomeWait1 (analyzeAndPostV1 actsNoSentinel 1) = none ∧
    outcomeWait2 (analyzeAndPostV2 actsNoSentinel 1) = none :=
  no_sentinel_stops_cycle actsNoSentinel 1 (by decide)

/-- C5 counterexample: at sentinel position 11 variant 2's cycle waits
`interval2 11` minutes, yet `interval1` — the claimed
`max(1, floor(505/3 - 15 * (position - 1)))` — evaluates to 18 there while
`interval2 11 = 55/3 ≠ 18`; and at position 13 variant 2's interval is
negative, so it is not always at least 1 minute. -/
theorem wait_interval_counterexample :
    outcomeWait2 (analyzeAndPostV2 actsPos11 0) = some (interval2 11) ∧
    interval1 11 = 18 ∧ interval2 11 ≠ 18 ∧ interval2 13 < 1 := by
  refine ⟨?_, ?_, ?_, ?_⟩
  · have h : sentinelPosition actsPos11 = some 11 := by decide
    rw [analyzeAndPostV2_eq, h]
    simp [outcomeWait2]
  · unfold interval1
    push_cast
    rw [show ((505 : ℚ) / 3 - 15 * ((11 : ℚ) - 1)) = 55 / 3 by norm_num]
    rw [show ⌊(55 : ℚ) / 3⌋ = 18 by
      rw [Int.floor_eq_iff]
      norm_num]
    norm_num
  · norm_num [interval2]
  · norm_num [interval2]

/-- C5 amended: for every sentinel position, variant 1 computes the wait
`interval1 = max(1, floor(505/3 - 15 * (position - 1)))` minutes — always
at least 1 — and its per-minute countdown sleeps `interval1 * 60000`
milliseconds in total; variant 2 instead computes the raw unfloored,
unclamped value `505/3 - 15 * (position - 1)` and issues a single sleep of
`interval2 * 60000` milliseconds (fractional, and negative — hence an
immediate retry — for positions of 13 and above). -/
theorem wait_interval_amended (activities : List Activity) (pos r : Nat)
    (hpos : sentinelPosition activities = some pos) :
    1 ≤ interval1 pos ∧
    countdownMs (interval1 pos) = interval1 pos * 60000 ∧
    outcomeWait1 (analyzeAndPostV1 activities r) = some (interval1 pos) ∧
    outcomeWait2 (analyzeAndPostV2 activities r) = some (interval2 pos) ∧
    sleepMs2 pos = interval2 pos * 60000 := by
  have h1 : 1 ≤ interval1 pos := le_max_left 1 _
  refine ⟨h1, ?_, ?_, ?_, rfl⟩
  · unfold countdownMs
    have : max 0 (interval1 pos) = interval1 pos := by omega
    rw [this]
  · rw [analyzeAndPostV1_eq, hpos]
    by_cases h : 11 ≤ pos <;> simp [h, outcomeWait1]
  · rw [analyzeAndPostV2_eq, hpos]
    by_cases h : 11 ≤ pos <;> simp [h, outcomeWait2]

/-- C5 amended witness: instantiated at the concrete page with sentinel at
position 2. -/
theorem wait_interval_amended_witness :
    1 ≤ interval1 2 ∧
    countdownMs (interval1 2) = interval1 2 * 60000 ∧
    outcomeWait1 (analyzeAndPostV1 actsPos2 3) = some (interval1 2) ∧
    outcomeWait2 (analyzeAndPostV2 actsPos2 3) = some (interval2 2) ∧
    sleepMs2 2 = interval2 2 * 60000 :=
  wait_interval_amended actsPos2 2 3 (by decide)

/-- C6 counterexample: a configuration whose endpoint URL is missing while
the other three settings are present passes the startup check — the
process does not exit — contradicting the claim that a missing endpoint
URL is fatal at startup. -/
theorem startup_endpoint_unchecked_counterexample :
    configNoApi.accessApi = none ∧ startupFatal configNoApi = false ∧
    startupExitCode configNoApi = none := by
  refine ⟨rfl, by decide, by decide⟩

/-- C6 amended: at startup, if any of the three settings {user id,
credential, content template} is missing — or the user id does not parse
as a nonzero integer, or a present credential or template is the empty
string — the process logs and exits with status 1 (non-zero, not
retried); the endpoint URL is not checked. -/
theorem startup_check_amended (c : Config) :
    (c.saikoId = none → startupFatal c = true) ∧
    (c.accessToken = none → startupFatal c = true) ∧
    (c.contentTemplate = none → startupFatal c = true) ∧
    (jsParseInt c.saikoId = none → startupFatal c = true) ∧
    (startupFatal c = false →
      (∃ n, jsParseInt c.saikoId = some n ∧ n ≠ 0) ∧
      (∃ t, c.accessToken = some t ∧ t ≠ "") ∧
      (∃ u, c.contentTemplate = some u ∧ u ≠ "")) ∧
    (startupFatal c = true → startupExitCode c = some 1 ∧ (1 : Nat) ≠ 0) := by
  refine ⟨?_, ?_, ?_, ?_, ?_, ?_⟩
  · intro h
    simp [startupFatal, h, jsParseInt, jsTruthyInt]
  · intro h
    simp [startupFatal, h, jsTruthyStr]
  · intro h
    simp [startupFatal, h, jsTruthyStr]
  · intro h
    simp [startupFatal, h, jsTruthyInt]
  · intro h
    simp only [startupFatal, Bool.or_eq_false_iff, Bool.not_eq_true'] at h
    obtain ⟨⟨hid, htok⟩, htmpl⟩ := h
    refine ⟨?_, ?_, ?_⟩
    · cases hp : jsParseInt c.saikoId with
      | none => rw [hp] at hid; simp [jsTruthyInt] at hid
      | some n =>
        rw [hp] at hid
        simp only [jsTruthyInt, Bool.not_eq_false] at hid
        exact ⟨n, rfl, by simpa using hid⟩
    · cases ht : c.accessToken with
      | none => rw [ht] at htok; simp [jsTruthyStr] at htok
      | some t =>
        rw [ht] at htok
        simp only [jsTruthyStr, Bool.not_eq_false] at htok
        exact ⟨t, rfl, by simpa using htok⟩
    · cases hu : c.contentTemplate with
      | none => rw [hu] at htmpl; simp [jsTruthyStr] at htmpl
      | some u =>
        rw [hu] at htmpl
        simp only [jsTruthyStr, Bool.not_eq_false] at htmpl
        exact ⟨u, rfl, by simpa using htmpl⟩
  · intro h
    exact ⟨by simp [startupExitCode, h], by omega⟩

/-- C6 amended witness: a configuration missing only the credential is
fatal with exit status 1. -/
theorem startup_check_amended_witness :
    startupFatal configNoToken = true ∧ startupExitCode configNoToken = some 1 :=
  ⟨(startup_check_amended configNoToken).2.1 rfl,
    ((startup_check_amended configNoToken).2.2.2.2.2
      ((startup_check_amended configNoToken).2.1 rfl)).1⟩

/-- C7 counterexample: a successfully parsed body whose `errors` field is
the EMPTY array still yields a null result — `if (result.errors)` is
truthy for any array — although the transport succeeded and the errors
array is not non-empty, so the claim's "exactly when" fails: it would
require the `data` field (here `some 42`) to be returned. -/
theorem fetchGraphQL_empty_errors_counterexample :
    fetchGraphQL (some emptyErrorsResult) = none ∧
    emptyErrorsResult.errors = some [] ∧
    emptyErrorsResult.data = some 42 ∧
    (none : Option Nat) ≠ some 42 := by
  refine ⟨rfl, rfl, rfl, by decide⟩

/-- C7 amended: `fetchGraphQL` returns a null result exactly when the
transport fails, or the parsed body's `errors` field is present (truthy —
even as an empty array), or the `data` field is itself absent; whenever
`errors` is absent it returns the body's `data` field, and it never raises
past the client boundary (it is a total function). -/
theorem fetchGraphQL_null_characterisation {α : Type} (response : Option (GQLResult α)) :
    (fetchGraphQL response = none ↔
      response = none ∨
        ∃ result, response = some result ∧
          (result.errors ≠ none ∨ result.data = none)) ∧
    (∀ result, response = some result → result.errors = none →
      fetchGraphQL response = result.data) := by
  constructor
  · constructor
    · intro h
      cases response with
      | none => exact Or.inl rfl
      | some result =>
        refine Or.inr ⟨result, rfl, ?_⟩
        cases he : result.errors with
        | some l => exact Or.inl (by simp [he])
        | none =>
          right
          rw [← h]
          simp [fetchGraphQL, he]
    · intro h
      rcases h with rfl | ⟨result, rfl, herr | hdata⟩
      · rfl
      · cases he : result.errors with
        | none => exact absurd he herr
        | some l => simp [fetchGraphQL, he]
      · cases he : result.errors with
        | none => simp [fetchGraphQL, he, hdata]
        | some l => simp [fetchGraphQL, he]
  · intro result hres herr
    subst hres
    simp [fetchGraphQL, herr]

/-- C7 amended witness: a body with a non-empty errors array yields null,
and a clean body yields its data field. -/
theorem fetchGraphQL_null_characterisation_witness :
    fetchGraphQL (some (⟨none, some 7⟩ : GQLResult Nat)) =
      (⟨none, some 7⟩ : GQLResult Nat).data :=
  (fetchGraphQL_null_characterisation (some (⟨none, some 7⟩ : GQLResult Nat))).2
    ⟨none, some 7⟩ rfl rfl

/-- C8: the fetch-activities operation returns the activities array from
the fetched page, and returns the empty sequence — it is a total function,
so it never throws — whenever the response shape is missing any expected
field, including a null data result. -/
theorem getLatestActivities_shape (response : Option (GQLResult FeedData)) :
    (fetchGraphQL response = none → getLatestActivities response = []) ∧
    (∀ d, fetchGraphQL response = some d → d.Page = none →
      getLatestActivities response = []) ∧
    (∀ d p, fetchGraphQL response = some d → d.Page = some p → p.activities = none →
      getLatestActivities response = []) ∧
    (∀ d p acts, fetchGraphQL response = some d → d.Page = some p →
      p.activities = some acts → getLatestActivities response = acts) := by
  refine ⟨?_, ?_, ?_, ?_⟩
  · intro h
    simp [getLatestActivities, h]
  · intro d hd hp
    simp [getLatestActivities, hd, hp]
  · intro d p hd hp ha
    simp [getLatestActivities, hd, hp, ha]
  · intro d p acts hd hp ha
    simp [getLatestActivities, hd, hp, ha]

/-- C8 witness: on a fully populated response the page's activities list is
returned verbatim. -/
theorem getLatestActivities_shape_witness :
    getLatestActivities feedOkResponse = actsPos2 :=
  (getLatestActivities_shape feedOkResponse).2.2.2 ⟨some ⟨some actsPos2⟩⟩
    ⟨some actsPos2⟩ actsPos2 rfl rfl rfl

/-- C4 counterexample: with the template being exactly the placeholder of
`A` and the mapping `A` to the placeholder of `B`, `B` to `x`, the code
yields `x`: the second key's pass re-scanned the text substituted by the
first pass.  Under the claim's no-re-scanning semantics (`renderNoRescan`)
the result would keep the substituted placeholder of `B` verbatim. -/
theorem render_rescans_counterexample :
    generateContent tmplRescan varsRescan = ['x'] ∧
    renderNoRescan varsRescan tmplRescan = [lbrace, 'B', rbrace] ∧
    generateContent tmplRescan varsRescan ≠ renderNoRescan varsRescan tmplRescan := by
  refine ⟨?_, ?_, ?_⟩
  · simp [generateContent, tmplRescan, varsRescan, replaceAll, placeholder, lbrace, rbrace]
  · simp [renderNoRescan, tmplRescan, varsRescan, placeholder, lbrace, rbrace, List.find?]
  · simp [generateContent, renderNoRescan, tmplRescan, varsRescan, replaceAll, placeholder,
      lbrace, rbrace, List.find?]

/-- C4 amended: the renderer applies the pairs sequentially, each pass
replacing every literal occurrence of the pair's placeholder in the
current content — so text substituted by an earlier pair IS re-scanned by
later pairs' passes, though never within a single pass; a template in
which no pair's placeholder occurs (in particular one whose placeholders
name no key of the mapping) is returned verbatim, and unused keys cause
no error. -/
theorem render_sequential_amended (template : List Char)
    (vars : List (List Char × List Char)) :
    (∀ kv, generateContent template (kv :: vars) =
      generateContent (replaceAll (placeholder kv.1) kv.2 template) vars) ∧
    ((∀ kv ∈ vars, ∀ i < template.length, ¬ occursAt (placeholder kv.1) template i) →
      generateContent template vars = template) ∧
    (∀ k v x y, (∀ i < x.length, ¬ occursAt (placeholder k) (x ++ placeholder k ++ y) i) →
      replaceAll (placeholder k) v (x ++ placeholder k ++ y) =
        x ++ v ++ replaceAll (placeholder k) v y) := by
  refine ⟨?_, ?_, ?_⟩
  · intro kv
    exact generateContent_cons template kv vars
  · exact generateContent_of_no_occurrence template vars
  · intro k v x y h
    exact replaceAll_first_occurrence (placeholder k) v (placeholder_length_pos k) x y h

/-- C4 amended witness: a placeholder-free template passes through
unchanged even with an unused key, and a single-occurrence template is
substituted exactly once. -/
theorem render_sequential_amended_witness :
    generateContent tmplPlain varsPlain = tmplPlain ∧
    replaceAll (placeholder ['A']) ['x'] ([] ++ placeholder ['A'] ++ []) =
      [] ++ ['x'] ++ replaceAll (placeholder ['A']) ['x'] [] :=
  ⟨(render_sequential_amended tmplPlain varsPlain).2.1 (by decide),
    (render_sequential_amended tmplPlain varsPlain).2.2 ['A'] ['x'] [] []
      (by decide)⟩
